import Mathlib

/-!
# youless-prometheus: the collector of `main.go`

A shallow embedding of `YoulessEntry`, `YoulessCollector`, the four descriptors,
`RemoteMetrics`, `Describe` and `Collect`, together with the parts of the Go
libraries these call (`http.Get`, `ioutil.ReadAll`, `json.Unmarshal` into a
`[]YoulessEntry`, `prometheus.NewDesc`, `prometheus.MustNewConstMetric`,
`prometheus.DescribeByCollect`).

Conventions of the embedding:

* The primitive type `float64` is a type parameter `F` with the operations the
  program uses (`Float64Ops`): nothing here depends on how a float is rounded.
* `int` and `uint` are 64 bits wide; their values are kept as `Int` and `Nat`
  and the decoder checks the range explicitly.
* A response body is represented by the result of the decoder's syntax scan:
  either it is not a JSON text, or it is the JSON value the text denotes.
* A Go run-time panic is the `error` side of `Except Panic`.
* `log.Printf` writes to the process log only and is left out.
-/

namespace Youless

/-! ## JSON values -/

/-- A JSON number literal `-?int(.frac)?(e exp)?`. The grammar forbids leading
zeros in the integer part, so `int` is kept as its value; `frac` lists the digits
after the decimal point (empty when there is no fraction part); `exp` is the
value of the exponent part when there is one. -/
structure JNumber where
  neg : Bool
  int : Nat
  frac : List Nat
  exp : Option Int
  deriving DecidableEq, Repr

/-- A JSON value. Object members are kept in the order of the text, duplicates
included. -/
inductive JValue where
  | null
  | bool (b : Bool)
  | number (n : JNumber)
  | string (s : String)
  | array (elems : List JValue)
  | object (members : List (String × JValue))

/-- A response body as the decoder's syntax scan sees it. -/
inductive Body where
  | invalid
  | json (v : JValue)

/-! ## The primitive type float64 -/

/-- The operations on `float64` that the program relies on: the zero value of
the type, the conversion `float64(n)` from `int`, and `strconv.ParseFloat(s, 64)`
on a JSON number literal (`none` when the literal is out of range). -/
structure Float64Ops (F : Type) where
  zero : F
  ofInt : Int → F
  parseFloat : JNumber → Option F
  ofInt_zero : ofInt 0 = zero

/-- An instance of `Float64Ops` that keeps a value as the decimal literal
denoting it. It is used to evaluate the definitions on examples. -/
def literalOps : Float64Ops JNumber where
  zero := ⟨false, 0, [], none⟩
  ofInt := fun n => ⟨decide (n < 0), n.natAbs, [], none⟩
  parseFloat := fun n => some n
  ofInt_zero := rfl

/-! ## Data model of `main.go` -/

/-- The struct `YoulessCollector` (lines 15-18). -/
structure YoulessCollector where
  increment : Nat
  url : String
  deriving DecidableEq, Repr

/-- The struct `YoulessEntry` (lines 21-34). -/
structure YoulessEntry (F : Type) where
  Tm : Nat
  Net : F
  Pwr : Int
  Ts0 : Nat
  Cs0 : F
  Ps0 : Nat
  P1 : F
  P2 : F
  N1 : F
  N2 : F
  Gas : F
  Gts : Nat
  deriving DecidableEq, Repr

/-- The zero value `YoulessEntry{}`. -/
def YoulessEntry.zero {F : Type} (fl : Float64Ops F) : YoulessEntry F :=
  ⟨0, fl.zero, 0, 0, fl.zero, 0, fl.zero, fl.zero, fl.zero, fl.zero, fl.zero, 0⟩

/-- The fields of `YoulessEntry`, as reflection enumerates them. -/
inductive Field where
  | Tm | Net | Pwr | Ts0 | Cs0 | Ps0 | P1 | P2 | N1 | N2 | Gas | Gts
  deriving DecidableEq, Repr

/-- Declaration order of the fields. -/
def Field.all : List Field :=
  [.Tm, .Net, .Pwr, .Ts0, .Cs0, .Ps0, .P1, .P2, .N1, .N2, .Gas, .Gts]

/-- The Go name of a field; no field has a `json` tag, so this is also the key
the decoder looks for. -/
def Field.goName : Field → String
  | .Tm => "Tm" | .Net => "Net" | .Pwr => "Pwr" | .Ts0 => "Ts0"
  | .Cs0 => "Cs0" | .Ps0 => "Ps0" | .P1 => "P1" | .P2 => "P2"
  | .N1 => "N1" | .N2 => "N2" | .Gas => "Gas" | .Gts => "Gts"

/-- The key under which the device sends each field, as in the sample response
quoted above the declaration of `YoulessCollector` (line 14). -/
def Field.jsonName : Field → String
  | .Tm => "tm" | .Net => "net" | .Pwr => "pwr" | .Ts0 => "ts0"
  | .Cs0 => "cs0" | .Ps0 => "ps0" | .P1 => "p1" | .P2 => "p2"
  | .N1 => "n1" | .N2 => "n2" | .Gas => "gas" | .Gts => "gts"

/-! ## `encoding/json`: decoding into `[]YoulessEntry` -/

/-- Case folding of one rune as `json.foldName` does it, restricted to what can
make a key equal to an ASCII field name: `a`-`z` go to upper case, and the two
non-ASCII runes whose fold orbit contains an ASCII letter (U+017F and U+212A) go
to `S` and `K`. Every other rune is left alone. -/
def foldRune (c : Char) : Char :=
  if 97 ≤ c.toNat ∧ c.toNat ≤ 122 then Char.ofNat (c.toNat - 32)
  else if c.toNat = 0x17F then 'S'
  else if c.toNat = 0x212A then 'K'
  else c

/-- The folded form of a key: `json.foldName`. -/
def foldName (s : String) : List Char := s.toList.map foldRune

/-- The struct field an object key is stored into: an exact match of the name
first, a match of the folded names otherwise (`fields.byExactName` and
`fields.byFoldedName`). -/
def lookupField (key : String) : Option Field :=
  match Field.all.find? (fun f => f.goName = key) with
  | some f => some f
  | none => Field.all.find? (fun f => foldName f.goName = foldName key)

/-- The conversion `strconv.ParseUint(s, 10, 64)` on a JSON number literal. -/
def parseUint (n : JNumber) : Option Nat :=
  if n.neg = true ∨ n.frac ≠ [] ∨ n.exp ≠ none then none
  else if n.int < 2 ^ 64 then some n.int else none

/-- The conversion `strconv.ParseInt(s, 10, 64)` on a JSON number literal. -/
def parseInt (n : JNumber) : Option Int :=
  if n.frac ≠ [] ∨ n.exp ≠ none then none
  else if n.neg = true then
    (if n.int ≤ 2 ^ 63 then some (-(n.int : Int)) else none)
  else if n.int < 2 ^ 63 then some (n.int : Int) else none

/-- The errors `json.Unmarshal` returns. `UnmarshalTypeError` carries the
description of the offending JSON value. -/
inductive UnmarshalError where
  | SyntaxError
  | UnmarshalTypeError (value : String)
  deriving DecidableEq, Repr

/-- The method `decodeState.saveError`: only the first error is kept. -/
def saveError (saved : Option UnmarshalError) (err : UnmarshalError) :
    Option UnmarshalError :=
  match saved with
  | none => some err
  | some e => some e

/-- The kinds (`reflect.Kind`) of the fields of `YoulessEntry`. -/
inductive Kind where
  | Uint
  | Int
  | Float64
  deriving DecidableEq, Repr

/-- The kind of each field, from the declaration of the struct. -/
def Field.kind : Field → Kind
  | .Tm => .Uint | .Net => .Float64 | .Pwr => .Int | .Ts0 => .Uint
  | .Cs0 => .Float64 | .Ps0 => .Uint | .P1 => .Float64 | .P2 => .Float64
  | .N1 => .Float64 | .N2 => .Float64 | .Gas => .Float64 | .Gts => .Uint

/-- A value of one of the three kinds (the `reflect.Value` of a field). -/
inductive FieldVal (F : Type) where
  | uint (x : Nat)
  | int (x : Int)
  | float (x : F)
  deriving DecidableEq, Repr

/-- Reading a field by reflection. -/
def YoulessEntry.get {F : Type} (e : YoulessEntry F) : Field → FieldVal F
  | .Tm => .uint e.Tm | .Net => .float e.Net | .Pwr => .int e.Pwr | .Ts0 => .uint e.Ts0
  | .Cs0 => .float e.Cs0 | .Ps0 => .uint e.Ps0 | .P1 => .float e.P1 | .P2 => .float e.P2
  | .N1 => .float e.N1 | .N2 => .float e.N2 | .Gas => .float e.Gas | .Gts => .uint e.Gts

/-- Assigning a field by reflection (`SetUint`, `SetInt`, `SetFloat`); a value of
another kind than the field is never passed and leaves the struct alone. -/
def YoulessEntry.set {F : Type} (e : YoulessEntry F) (f : Field) (v : FieldVal F) :
    YoulessEntry F :=
  match f, v with
  | .Tm, .uint x => { e with Tm := x }
  | .Net, .float x => { e with Net := x }
  | .Pwr, .int x => { e with Pwr := x }
  | .Ts0, .uint x => { e with Ts0 := x }
  | .Cs0, .float x => { e with Cs0 := x }
  | .Ps0, .uint x => { e with Ps0 := x }
  | .P1, .float x => { e with P1 := x }
  | .P2, .float x => { e with P2 := x }
  | .N1, .float x => { e with N1 := x }
  | .N2, .float x => { e with N2 := x }
  | .Gas, .float x => { e with Gas := x }
  | .Gts, .uint x => { e with Gts := x }
  | _, _ => e

/-- The conversion of a number literal for a field of the given kind
(`literalStore`, number case): `ParseUint`, `ParseInt` or `ParseFloat` with the
range check of the kind; `none` when the literal does not convert. -/
def convertNumber {F : Type} (fl : Float64Ops F) (k : Kind) (n : JNumber) :
    Option (FieldVal F) :=
  match k with
  | .Uint => (parseUint n).map .uint
  | .Int => (parseInt n).map .int
  | .Float64 => (fl.parseFloat n).map .float

/-- Storing a number literal into a field: the literal is converted for the kind
of the field and assigned; `none` when the conversion fails, in which case the
field is left as it was. -/
def storeNumber {F : Type} (fl : Float64Ops F) (e : YoulessEntry F) (f : Field)
    (n : JNumber) : Option (YoulessEntry F) :=
  (convertNumber fl f.kind n).map (e.set f)

/-- One member of an object decoded into the struct: a key that matches no
field is skipped; `null` leaves the field alone; a number is converted and
stored; any other value, or a number that does not convert, records an
`UnmarshalTypeError` and decoding goes on. -/
def storeMember {F : Type} (fl : Float64Ops F)
    (st : YoulessEntry F × Option UnmarshalError) (m : String × JValue) :
    YoulessEntry F × Option UnmarshalError :=
  match lookupField m.1 with
  | none => st
  | some f =>
    match m.2 with
    | .null => st
    | .number n =>
      match storeNumber fl st.1 f n with
      | some e => (e, st.2)
      | none => (st.1, saveError st.2 (.UnmarshalTypeError "number"))
    | .bool _ => (st.1, saveError st.2 (.UnmarshalTypeError "bool"))
    | .string _ => (st.1, saveError st.2 (.UnmarshalTypeError "string"))
    | .array _ => (st.1, saveError st.2 (.UnmarshalTypeError "array"))
    | .object _ => (st.1, saveError st.2 (.UnmarshalTypeError "object"))

/-- One array element decoded into a fresh (zero) `YoulessEntry`: an object is
decoded member by member, `null` leaves the zero value, anything else records an
`UnmarshalTypeError`. -/
def decodeElement {F : Type} (fl : Float64Ops F) (v : JValue)
    (saved : Option UnmarshalError) : YoulessEntry F × Option UnmarshalError :=
  match v with
  | .object ms => ms.foldl (storeMember fl) (YoulessEntry.zero fl, saved)
  | .null => (YoulessEntry.zero fl, saved)
  | .number _ => (YoulessEntry.zero fl, saveError saved (.UnmarshalTypeError "number"))
  | .bool _ => (YoulessEntry.zero fl, saveError saved (.UnmarshalTypeError "bool"))
  | .string _ => (YoulessEntry.zero fl, saveError saved (.UnmarshalTypeError "string"))
  | .array _ => (YoulessEntry.zero fl, saveError saved (.UnmarshalTypeError "array"))

/-- The elements of an array decoded into the slice, one entry per element. -/
def decodeArray {F : Type} (fl : Float64Ops F) :
    List JValue → Option UnmarshalError → List (YoulessEntry F) × Option UnmarshalError
  | [], saved => ([], saved)
  | v :: vs, saved =>
    let r := decodeElement fl v saved
    let rs := decodeArray fl vs r.2
    (r.1 :: rs.1, rs.2)

/-- The call `json.Unmarshal(body, &entries)` with `entries` a nil
`[]YoulessEntry`: the contents of `entries` afterwards and the returned error.
A body that is not JSON leaves `entries` nil; `null` leaves it nil without an
error; an array fills it; any other value is an `UnmarshalTypeError`. -/
def Unmarshal {F : Type} (fl : Float64Ops F) (body : Body) :
    List (YoulessEntry F) × Option UnmarshalError :=
  match body with
  | .invalid => ([], some .SyntaxError)
  | .json .null => ([], none)
  | .json (.array vs) => decodeArray fl vs none
  | .json (.object _) => ([], some (.UnmarshalTypeError "object"))
  | .json (.number _) => ([], some (.UnmarshalTypeError "number"))
  | .json (.bool _) => ([], some (.UnmarshalTypeError "bool"))
  | .json (.string _) => ([], some (.UnmarshalTypeError "string"))

/-! ## `net/http` and `ioutil` -/

/-- The result of `ioutil.ReadAll(resp.Body)`. -/
inductive ReadResult where
  | err
  | data (body : Body)

/-- The result of `http.Get`: an error, or a response with its status code and
body stream. A status outside 2xx is not an error. -/
inductive GetResult where
  | err
  | resp (status : Nat) (body : ReadResult)

/-- What a GET of each URL gives at the time of a scrape. -/
abbrev Network := String → GetResult

/-! ## `prometheus` -/

/-- The struct `prometheus.Desc`, without constant labels (all four descriptors
pass `nil`). `err` is the construction error `NewDesc` records. -/
structure Desc where
  fqName : String
  help : String
  variableLabels : List String
  err : Option String
  deriving DecidableEq, Repr

/-- The check `model.IsValidMetricName`: `[a-zA-Z_:][a-zA-Z0-9_:]*`. -/
def isValidMetricName (s : String) : Bool :=
  match s.toList with
  | [] => false
  | c :: cs =>
    (c.isAlpha || c = '_' || c = ':') &&
      cs.all (fun d => d.isAlpha || d.isDigit || d = '_' || d = ':')

/-- The check on a label name: `[a-zA-Z_][a-zA-Z0-9_]*` and not reserved, that
is, not starting with two underscores. -/
def isValidLabelName (s : String) : Bool :=
  match s.toList with
  | [] => false
  | c :: cs =>
    (c.isAlpha || c = '_') && cs.all (fun d => d.isAlpha || d.isDigit || d = '_') &&
      !(c = '_' && cs.head? = some '_')

/-- The constructor `prometheus.NewDesc(fqName, help, variableLabels, nil)`. The
descriptor carries an error when the help string is empty (checked by the
releases of the library of the time of this program), when the metric name or a
label name is invalid, or when a label name occurs twice. -/
def NewDesc (fqName help : String) (variableLabels : List String) : Desc :=
  { fqName := fqName
    help := help
    variableLabels := variableLabels
    err :=
      if help = "" then some "empty help string"
      else if isValidMetricName fqName = false then some "invalid metric name"
      else if variableLabels.all isValidLabelName = false then some "invalid label name"
      else if variableLabels.Nodup then none
      else some "duplicate label names" }

/-- The value kinds `prometheus.CounterValue` and `prometheus.GaugeValue`. -/
inductive ValueType where
  | CounterValue
  | GaugeValue
  deriving DecidableEq, Repr

/-- A constant metric: its descriptor, value kind, value and label pairs (label
name, label value). -/
structure Metric (F : Type) where
  desc : Desc
  valType : ValueType
  val : F
  labelPairs : List (String × String)
  deriving DecidableEq, Repr

/-- Why a Go routine panicked. -/
inductive Panic where
  | indexOutOfRange (index len : Nat)
  | mustNewConstMetric (err : String)
  deriving DecidableEq, Repr

/-- The constructor `prometheus.NewConstMetric`: it fails when the descriptor
carries an error or when the number of label values differs from the number of
variable labels of the descriptor. (The label values of this program are valid
UTF-8, and with at most one label the pairs are already sorted.) -/
def NewConstMetric {F : Type} (desc : Desc) (valueType : ValueType) (value : F)
    (labelValues : List String) : Except String (Metric F) :=
  match desc.err with
  | some e => .error e
  | none =>
    if labelValues.length = desc.variableLabels.length then
      .ok ⟨desc, valueType, value, desc.variableLabels.zip labelValues⟩
    else .error "inconsistent label cardinality"

/-- The constructor `prometheus.MustNewConstMetric`: panics where
`NewConstMetric` returns an error. -/
def MustNewConstMetric {F : Type} (desc : Desc) (valueType : ValueType) (value : F)
    (labelValues : List String) : Except Panic (Metric F) :=
  match NewConstMetric desc valueType value labelValues with
  | .error e => .error (.mustNewConstMetric e)
  | .ok m => .ok m

/-! ## The collector of `main.go` -/

/-- The descriptor `consCountDesc` (lines 38-42). -/
def consCountDesc : Desc :=
  NewDesc "youless_kwh_consumption_total" "Kwh power consumption." ["tariff"]

/-- The descriptor `prodCountDesc` (lines 43-47). -/
def prodCountDesc : Desc :=
  NewDesc "youless_kwh_production_total" "Kwh power production." ["tariff"]

/-- The descriptor `gasCountDesc` (lines 48-52). -/
def gasCountDesc : Desc :=
  NewDesc "youless_gas_consumption_total" "gas consumption." []

/-- The descriptor `pwrGaugeDesc` (lines 53-57). -/
def pwrGaugeDesc : Desc :=
  NewDesc "youless_pwr_current" "Current watt consumption" []

/-- The method `RemoteMetrics` (lines 61-84). Each of the three error checks
returns `YoulessEntry{}`; otherwise the result is `entries[0]`, which panics
when `entries` is empty. -/
def RemoteMetrics {F : Type} (fl : Float64Ops F) (yc : YoulessCollector)
    (net : Network) : Except Panic (YoulessEntry F) :=
  match net yc.url with
  | .err => .ok (YoulessEntry.zero fl)
  | .resp _ rd =>
    match rd with
    | .err => .ok (YoulessEntry.zero fl)
    | .data body =>
      match Unmarshal fl body with
      | (_, some _) => .ok (YoulessEntry.zero fl)
      | (entries, none) =>
        match entries with
        | [] => .error (.indexOutOfRange 0 0)
        | e :: _ => .ok e

/-- Lines 96-112 of `Collect`: the six sends on the channel, in program order. -/
def emitMetrics {F : Type} (fl : Float64Ops F) (measurements : YoulessEntry F) :
    Except Panic (List (Metric F)) := do
  let gas ← MustNewConstMetric gasCountDesc .CounterValue measurements.Gas []
  let p1 ← MustNewConstMetric consCountDesc .CounterValue measurements.P1 ["low"]
  let p2 ← MustNewConstMetric consCountDesc .CounterValue measurements.P2 ["high"]
  let n1 ← MustNewConstMetric prodCountDesc .CounterValue measurements.N1 ["low"]
  let n2 ← MustNewConstMetric prodCountDesc .CounterValue measurements.N2 ["high"]
  let pwr ← MustNewConstMetric pwrGaugeDesc .GaugeValue (fl.ofInt measurements.Pwr) []
  pure [gas, p1, p2, n1, n2, pwr]

/-- The method `Collect` (lines 93-113): the receiver after the call (no field
is assigned) and the metrics sent on the channel. -/
def Collect {F : Type} (fl : Float64Ops F) (yc : YoulessCollector) (net : Network) :
    YoulessCollector × Except Panic (List (Metric F)) :=
  (yc, do
    let measurements ← RemoteMetrics fl yc net
    emitMetrics fl measurements)

/-- The method `Describe` (lines 88-90), that is `prometheus.DescribeByCollect`:
it runs `Collect` and sends the descriptor of every collected metric. -/
def Describe {F : Type} (fl : Float64Ops F) (yc : YoulessCollector) (net : Network) :
    YoulessCollector × Except Panic (List Desc) :=
  let r := Collect fl yc net
  (r.1, r.2.map (fun ms => ms.map Metric.desc))

/-! ## Examples used below -/

/-- The literal of a non-negative integer. -/
def JNumber.nat (n : Nat) : JNumber := ⟨false, n, [], none⟩

/-- The literal `int.frac` of a non-negative decimal. -/
def JNumber.dec (n : Nat) (frac : List Nat) : JNumber := ⟨false, n, frac, none⟩

/-- The collector that `main` registers (line 120). -/
def mainCollector : YoulessCollector := ⟨0, "http://youless/e"⟩

/-- A network on which every GET is answered with the given status and body. -/
def answering (status : Nat) (body : Body) : Network :=
  fun _ => .resp status (.data body)

/-- A network on which every GET fails. -/
def unreachable : Network := fun _ => .err

/-- The members of the object
`{"gas":2878.709,"p1":4590.448,"p2":4315.399,"n1":2320.876,"n2":5451.039,"pwr":431}`. -/
def sampleMembers : List (String × JValue) :=
  [("gas", .number (.dec 2878 [7, 0, 9])), ("p1", .number (.dec 4590 [4, 4, 8])),
   ("p2", .number (.dec 4315 [3, 9, 9])), ("n1", .number (.dec 2320 [8, 7, 6])),
   ("n2", .number (.dec 5451 [0, 3, 9])), ("pwr", .number (.nat 431))]

/-- The body `[{"gas":2878.709, ..., "pwr":431}]`. -/
def sampleBody : Body := .json (.array [.object sampleMembers])

/-- The reading that `sampleBody` denotes. -/
def sampleReading : YoulessEntry JNumber :=
  { Tm := 0, Net := .nat 0, Pwr := 431, Ts0 := 0, Cs0 := .nat 0, Ps0 := 0,
    P1 := .dec 4590 [4, 4, 8], P2 := .dec 4315 [3, 9, 9], N1 := .dec 2320 [8, 7, 6],
    N2 := .dec 5451 [0, 3, 9], Gas := .dec 2878 [7, 0, 9], Gts := 0 }

/-- The body `[{"p1":4590.448,"n1":2320.876,"pwr":-431}]` of a device that
exports power. -/
def exportingBody : Body :=
  .json (.array [.object [("p1", .number (.dec 4590 [4, 4, 8])),
    ("n1", .number (.dec 2320 [8, 7, 6])), ("pwr", .number ⟨true, 431, [], none⟩)]])

/-- The reading that `exportingBody` denotes. -/
def exportingReading : YoulessEntry JNumber :=
  { Tm := 0, Net := .nat 0, Pwr := -431, Ts0 := 0, Cs0 := .nat 0, Ps0 := 0,
    P1 := .dec 4590 [4, 4, 8], P2 := .nat 0, N1 := .dec 2320 [8, 7, 6],
    N2 := .nat 0, Gas := .nat 0, Gts := 0 }

/-- The reading with `Gas` set to the given literal and every other field zero. -/
def gasOnly (gas : JNumber) : YoulessEntry JNumber :=
  { Tm := 0, Net := .nat 0, Pwr := 0, Ts0 := 0, Cs0 := .nat 0, Ps0 := 0,
    P1 := .nat 0, P2 := .nat 0, N1 := .nat 0, N2 := .nat 0, Gas := gas, Gts := 0 }

/-- The members of `{"gas":1.5,"pwr":1.5}`: `pwr` is fractional, `gas` is fine. -/
def fractionalPowerMembers : List (String × JValue) :=
  [("gas", .number (.dec 1 [5])), ("pwr", .number (.dec 1 [5]))]

/-! ## Lemmas on the collector -/

theorem emitMetrics_ok {F : Type} (fl : Float64Ops F) (r : YoulessEntry F) :
    emitMetrics fl r = .ok
      [⟨gasCountDesc, .CounterValue, r.Gas, []⟩,
       ⟨consCountDesc, .CounterValue, r.P1, [("tariff", "low")]⟩,
       ⟨consCountDesc, .CounterValue, r.P2, [("tariff", "high")]⟩,
       ⟨prodCountDesc, .CounterValue, r.N1, [("tariff", "low")]⟩,
       ⟨prodCountDesc, .CounterValue, r.N2, [("tariff", "high")]⟩,
       ⟨pwrGaugeDesc, .GaugeValue, fl.ofInt r.Pwr, []⟩] := rfl

theorem collect_of_remoteMetrics {F : Type} (fl : Float64Ops F) (yc : YoulessCollector)
    (net : Network) (r : YoulessEntry F) (h : RemoteMetrics fl yc net = .ok r) :
    (Collect fl yc net).2 = emitMetrics fl r := by
  simp only [Collect, h]
  rfl

theorem collect_of_panic {F : Type} (fl : Float64Ops F) (yc : YoulessCollector)
    (net : Network) (p : Panic) (h : RemoteMetrics fl yc net = .error p) :
    (Collect fl yc net).2 = .error p := by
  simp only [Collect, h]
  rfl

theorem remoteMetrics_get_err {F : Type} (fl : Float64Ops F) (yc : YoulessCollector)
    (net : Network) (h : net yc.url = .err) :
    RemoteMetrics fl yc net = .ok (YoulessEntry.zero fl) := by
  simp only [RemoteMetrics, h]

theorem remoteMetrics_read_err {F : Type} (fl : Float64Ops F) (yc : YoulessCollector)
    (net : Network) (s : Nat) (h : net yc.url = .resp s .err) :
    RemoteMetrics fl yc net = .ok (YoulessEntry.zero fl) := by
  simp only [RemoteMetrics, h]

theorem remoteMetrics_unmarshal_err {F : Type} (fl : Float64Ops F)
    (yc : YoulessCollector) (net : Network) (s : Nat) (b : Body) (e : UnmarshalError)
    (h : net yc.url = .resp s (.data b)) (he : (Unmarshal fl b).2 = some e) :
    RemoteMetrics fl yc net = .ok (YoulessEntry.zero fl) := by
  simp only [RemoteMetrics, h]
  cases hu : Unmarshal fl b with
  | mk es err =>
    rw [hu] at he
    simp only at he
    subst he
    rfl

theorem remoteMetrics_unmarshal_ok {F : Type} (fl : Float64Ops F)
    (yc : YoulessCollector) (net : Network) (s : Nat) (b : Body)
    (es : List (YoulessEntry F))
    (h : net yc.url = .resp s (.data b)) (he : Unmarshal fl b = (es, none)) :
    RemoteMetrics fl yc net =
      match es with
      | [] => .error (.indexOutOfRange 0 0)
      | e :: _ => .ok e := by
  simp only [RemoteMetrics, h, he]
  cases es <;> rfl

theorem zero_observations {F : Type} (fl : Float64Ops F) :
    ∃ ms, emitMetrics fl (YoulessEntry.zero fl) = .ok ms ∧ ms.length = 6 ∧
      ∀ m ∈ ms, m.val = fl.zero := by
  refine ⟨_, emitMetrics_ok fl _, rfl, ?_⟩
  intro m hm
  simp only [List.mem_cons, List.mem_singleton, List.not_mem_nil, or_false] at hm
  rcases hm with h | h | h | h | h | h <;> subst h <;>
    first | rfl | exact fl.ofInt_zero

/-! ## Lemmas on the decoder: the first error is never lost -/

theorem saveError_ne_none (s : Option UnmarshalError) (e : UnmarshalError) :
    saveError s e ≠ none := by
  cases s <;> simp [saveError]

theorem storeNumber_none_indep {F : Type} (fl : Float64Ops F) (e e0 : YoulessEntry F)
    (f : Field) (n : JNumber) (h : storeNumber fl e0 f n = none) :
    storeNumber fl e f n = none := by
  simp only [storeNumber, Option.map_eq_none'] at h ⊢
  exact h

theorem storeMember_keeps_error {F : Type} (fl : Float64Ops F)
    (st : YoulessEntry F × Option UnmarshalError) (m : String × JValue)
    (h : st.2 ≠ none) : (storeMember fl st m).2 ≠ none := by
  unfold storeMember
  split
  · exact h
  · split
    · exact h
    · split
      · exact h
      · exact saveError_ne_none _ _
    all_goals exact saveError_ne_none _ _

theorem storeMember_reports {F : Type} (fl : Float64Ops F) (e0 : YoulessEntry F)
    (st : YoulessEntry F × Option UnmarshalError) (m : String × JValue)
    (h : (storeMember fl (e0, none) m).2 ≠ none) : (storeMember fl st m).2 ≠ none := by
  unfold storeMember at h ⊢
  split
  · rename_i hk
    simp [hk] at h
  · rename_i f hk
    simp only [hk] at h
    split
    · rename_i hv
      simp [hv] at h
    · rename_i n hv
      simp only [hv] at h
      split
      · rename_i e hs
        cases h0 : storeNumber fl e0 f n with
        | none => rw [storeNumber_none_indep fl st.1 e0 f n h0] at hs; cases hs
        | some e1 => simp [h0] at h
      · exact saveError_ne_none _ _
    all_goals exact saveError_ne_none _ _

theorem foldl_keeps_error {F : Type} (fl : Float64Ops F) (ms : List (String × JValue))
    (st : YoulessEntry F × Option UnmarshalError) (h : st.2 ≠ none) :
    (ms.foldl (storeMember fl) st).2 ≠ none := by
  induction ms generalizing st with
  | nil => exact h
  | cons m ms ih => exact ih _ (storeMember_keeps_error fl st m h)

theorem foldl_reports {F : Type} (fl : Float64Ops F) (e0 : YoulessEntry F)
    (ms : List (String × JValue)) (m : String × JValue) (hm : m ∈ ms)
    (h : (storeMember fl (e0, none) m).2 ≠ none)
    (st : YoulessEntry F × Option UnmarshalError) :
    (ms.foldl (storeMember fl) st).2 ≠ none := by
  induction ms generalizing st with
  | nil => cases hm
  | cons a ms ih =>
    rcases List.mem_cons.mp hm with rfl | hm
    · exact foldl_keeps_error fl ms _ (storeMember_reports fl e0 st m h)
    · exact ih hm _

theorem decodeElement_keeps_error {F : Type} (fl : Float64Ops F) (v : JValue)
    (saved : Option UnmarshalError) (h : saved ≠ none) :
    (decodeElement fl v saved).2 ≠ none := by
  cases v <;> simp only [decodeElement]
  case object ms => exact foldl_keeps_error fl ms _ h
  case null => exact h
  all_goals exact saveError_ne_none _ _

theorem decodeArray_keeps_error {F : Type} (fl : Float64Ops F) (vs : List JValue)
    (saved : Option UnmarshalError) (h : saved ≠ none) :
    (decodeArray fl vs saved).2 ≠ none := by
  induction vs generalizing saved with
  | nil => exact h
  | cons v vs ih => exact ih _ (decodeElement_keeps_error fl v saved h)

theorem decodeArray_reports {F : Type} (fl : Float64Ops F) (vs : List JValue)
    (v : JValue) (hv : v ∈ vs) (h : ∀ saved, (decodeElement fl v saved).2 ≠ none)
    (saved : Option UnmarshalError) : (decodeArray fl vs saved).2 ≠ none := by
  induction vs generalizing saved with
  | nil => cases hv
  | cons a vs ih =>
    rcases List.mem_cons.mp hv with rfl | hv
    · exact decodeArray_keeps_error fl vs _ (h saved)
    · exact ih hv _

theorem remoteMetrics_array_cons {F : Type} (fl : Float64Ops F) (yc : YoulessCollector)
    (net : Network) (s : Nat) (x : JValue) (xs : List JValue)
    (h : net yc.url = .resp s (.data (.json (.array (x :: xs)))))
    (he : (Unmarshal fl (.json (.array (x :: xs)))).2 = none) :
    RemoteMetrics fl yc net = .ok (decodeElement fl x none).1 := by
  have hu : Unmarshal fl (.json (.array (x :: xs))) =
      ((decodeElement fl x none).1 :: (decodeArray fl xs (decodeElement fl x none).2).1,
        none) := by
    have h0 : Unmarshal fl (.json (.array (x :: xs))) =
        ((decodeElement fl x none).1 :: (decodeArray fl xs (decodeElement fl x none).2).1,
          (Unmarshal fl (.json (.array (x :: xs)))).2) := rfl
    rw [h0, he]
  exact remoteMetrics_unmarshal_ok fl yc net s _ _ h hu

/-! ## Lemmas on the decoder: one object with well-typed members -/

theorem lookupField_jsonName (f : Field) : lookupField f.jsonName = some f := by
  cases f <;> decide

theorem jsonName_injective (f g : Field) (h : f.jsonName = g.jsonName) : f = g := by
  have h1 := lookupField_jsonName f
  rw [h, lookupField_jsonName g] at h1
  exact (Option.some.inj h1).symm

theorem get_set_of_convert {F : Type} (fl : Float64Ops F) (e : YoulessEntry F)
    (f : Field) (n : JNumber) (v : FieldVal F)
    (h : convertNumber fl f.kind n = some v) : (e.set f v).get f = v := by
  cases f <;> simp only [Field.kind, convertNumber, Option.map_eq_some'] at h <;>
    obtain ⟨x, -, rfl⟩ := h <;> rfl

theorem get_set_ne {F : Type} (e : YoulessEntry F) (f g : Field) (v : FieldVal F)
    (h : f ≠ g) : (e.set g v).get f = e.get f := by
  cases g <;> cases v <;> cases f <;> first | rfl | exact absurd rfl h

theorem storeMember_unknown {F : Type} (fl : Float64Ops F)
    (st : YoulessEntry F × Option UnmarshalError) (m : String × JValue)
    (h : lookupField m.1 = none) : storeMember fl st m = st := by
  simp only [storeMember, h]

theorem storeMember_number {F : Type} (fl : Float64Ops F)
    (st : YoulessEntry F × Option UnmarshalError) (f : Field) (n : JNumber)
    (v : FieldVal F) (h : convertNumber fl f.kind n = some v) :
    storeMember fl st (f.jsonName, .number n) = (st.1.set f v, st.2) := by
  simp only [storeMember, lookupField_jsonName, storeNumber, h, Option.map_some']

theorem foldl_filter_known {F : Type} (fl : Float64Ops F)
    (ms : List (String × JValue)) (st : YoulessEntry F × Option UnmarshalError) :
    (ms.filter (fun m => (lookupField m.1).isSome)).foldl (storeMember fl) st =
      ms.foldl (storeMember fl) st := by
  induction ms generalizing st with
  | nil => rfl
  | cons a ms ih =>
    cases h : lookupField a.1 with
    | none =>
      rw [List.filter_cons_of_neg (by simp [h]), List.foldl_cons,
        storeMember_unknown fl st a h]
      exact ih st
    | some f =>
      rw [List.filter_cons_of_pos (by simp [h]), List.foldl_cons, List.foldl_cons]
      exact ih _

theorem foldl_wellTyped {F : Type} (fl : Float64Ops F) (ms : List (String × JValue))
    (hms : ∀ m ∈ ms, lookupField m.1 = none ∨
      ∃ (f : Field) (n : JNumber), m = (f.jsonName, JValue.number n) ∧
        (convertNumber fl f.kind n).isSome = true)
    (hnd : ms.Pairwise (fun a b => lookupField a.1 = none ∨ a.1 ≠ b.1))
    (st : YoulessEntry F × Option UnmarshalError) :
    (ms.foldl (storeMember fl) st).2 = st.2 ∧
    (∀ f n, (f.jsonName, JValue.number n) ∈ ms →
      convertNumber fl f.kind n = some ((ms.foldl (storeMember fl) st).1.get f)) ∧
    (∀ f, (∀ m ∈ ms, m.1 ≠ f.jsonName) →
      (ms.foldl (storeMember fl) st).1.get f = st.1.get f) := by
  induction ms generalizing st with
  | nil =>
    refine ⟨rfl, ?_, fun _ _ => rfl⟩
    intro f n h
    cases h
  | cons a ms ih =>
    have hms2 : ∀ m ∈ ms, lookupField m.1 = none ∨
        ∃ (f : Field) (n : JNumber), m = (f.jsonName, JValue.number n) ∧
          (convertNumber fl f.kind n).isSome = true :=
      fun m hm => hms m (List.mem_cons_of_mem a hm)
    have hnd2 := (List.pairwise_cons.mp hnd).2
    have hhead := (List.pairwise_cons.mp hnd).1
    rw [List.foldl_cons]
    rcases hms a (List.mem_cons_self a ms) with hu | ⟨g, n0, rfl, hc⟩
    · rw [storeMember_unknown fl st a hu]
      obtain ⟨i1, i2, i3⟩ := ih hms2 hnd2 st
      refine ⟨i1, ?_, ?_⟩
      · intro f n hf
        rcases List.mem_cons.mp hf with rfl | hf
        · rw [lookupField_jsonName] at hu
          cases hu
        · exact i2 f n hf
      · intro f hf
        exact i3 f (fun m hm => hf m (List.mem_cons_of_mem a hm))
    · obtain ⟨v, hv⟩ := Option.isSome_iff_exists.mp hc
      rw [storeMember_number fl st g n0 v hv]
      obtain ⟨i1, i2, i3⟩ := ih hms2 hnd2 (st.1.set g v, st.2)
      have habs : ∀ m ∈ ms, m.1 ≠ g.jsonName := by
        intro m hm
        rcases hhead m hm with h | h
        · rw [lookupField_jsonName] at h
          cases h
        · exact fun hh => h hh.symm
      refine ⟨i1, ?_, ?_⟩
      · intro f n hf
        rcases List.mem_cons.mp hf with heq | hf
        · have hfg : f = g := jsonName_injective f g (congrArg Prod.fst heq)
          subst hfg
          have hn : n = n0 := by
            have := congrArg Prod.snd heq
            simpa using this
          subst hn
          rw [i3 f habs, get_set_of_convert fl st.1 f n v hv, hv]
        · exact i2 f n hf
      · intro f hf
        have hfg : f ≠ g := by
          intro h
          subst h
          exact hf _ (List.mem_cons_self _ ms) rfl
        rw [i3 f (fun m hm => hf m (List.mem_cons_of_mem _ hm))]
        exact get_set_ne st.1 f g v hfg

/-! ## Lemmas on the decoder: members that are reported -/

theorem storeMember_fractional_int {F : Type} (fl : Float64Ops F) (e : YoulessEntry F)
    (f : Field) (n : JNumber) (hk : f.kind = .Int) (h : n.frac ≠ []) :
    (storeMember fl (e, none) (f.jsonName, .number n)).2 ≠ none := by
  simp [storeMember, lookupField_jsonName, storeNumber, hk, convertNumber, parseInt, h,
    saveError]

theorem storeMember_string {F : Type} (fl : Float64Ops F) (e : YoulessEntry F)
    (f : Field) (t : String) :
    (storeMember fl (e, none) (f.jsonName, .string t)).2 ≠ none := by
  simp [storeMember, lookupField_jsonName, saveError]

theorem storeMember_negative_uint {F : Type} (fl : Float64Ops F) (e : YoulessEntry F)
    (f : Field) (n : JNumber) (hk : f.kind = .Uint) (h : n.neg = true) :
    (storeMember fl (e, none) (f.jsonName, .number n)).2 ≠ none := by
  simp [storeMember, lookupField_jsonName, storeNumber, hk, convertNumber, parseUint, h,
    saveError]

/-! ## The claims -/

/-- Claim C1. Whenever the fetch returns a reading `r`, `Collect` sends exactly
six metrics, in this order: a counter on the gas descriptor without labels and
with value `r.Gas`; counters on the consumption descriptor with `tariff=low`,
value `r.P1`, and `tariff=high`, value `r.P2`; counters on the production
descriptor with `tariff=low`, value `r.N1`, and `tariff=high`, value `r.N2`; a
gauge on the power descriptor without labels and with value `float64(r.Pwr)`.
Hence the consumption and the production descriptor each occur exactly twice,
with the tariff values `low` and `high`. -/
theorem collect_emits_six_observations {F : Type} (fl : Float64Ops F)
    (yc : YoulessCollector) (net : Network) (r : YoulessEntry F)
    (h : RemoteMetrics fl yc net = .ok r) :
    (Collect fl yc net).2 = .ok
      [⟨gasCountDesc, .CounterValue, r.Gas, []⟩,
       ⟨consCountDesc, .CounterValue, r.P1, [("tariff", "low")]⟩,
       ⟨consCountDesc, .CounterValue, r.P2, [("tariff", "high")]⟩,
       ⟨prodCountDesc, .CounterValue, r.N1, [("tariff", "low")]⟩,
       ⟨prodCountDesc, .CounterValue, r.N2, [("tariff", "high")]⟩,
       ⟨pwrGaugeDesc, .GaugeValue, fl.ofInt r.Pwr, []⟩] ∧
    ∀ ms, (Collect fl yc net).2 = .ok ms →
      (ms.filter (fun m => decide (m.desc = consCountDesc))).map Metric.labelPairs =
        [[("tariff", "low")], [("tariff", "high")]] ∧
      (ms.filter (fun m => decide (m.desc = prodCountDesc))).map Metric.labelPairs =
        [[("tariff", "low")], [("tariff", "high")]] := by
  have hc := collect_of_remoteMetrics fl yc net r h
  rw [emitMetrics_ok] at hc
  refine ⟨hc, ?_⟩
  intro ms hms
  rw [hc] at hms
  cases hms
  have h1 : gasCountDesc ≠ consCountDesc := by decide
  have h2 : prodCountDesc ≠ consCountDesc := by decide
  have h3 : pwrGaugeDesc ≠ consCountDesc := by decide
  have h4 : gasCountDesc ≠ prodCountDesc := by decide
  have h5 : consCountDesc ≠ prodCountDesc := by decide
  have h6 : pwrGaugeDesc ≠ prodCountDesc := by decide
  simp [List.filter, h1, h2, h3, h4, h5, h6]

/-- Witness of C1: a device that exports 431 W; the gauge carries the negative
power. -/
theorem collect_emits_six_observations_witness :
    RemoteMetrics literalOps mainCollector (answering 200 exportingBody) =
      .ok exportingReading ∧
    literalOps.ofInt exportingReading.Pwr = ⟨true, 431, [], none⟩ ∧
    ((Collect literalOps mainCollector (answering 200 exportingBody)).2 = .ok
      [⟨gasCountDesc, .CounterValue, exportingReading.Gas, []⟩,
       ⟨consCountDesc, .CounterValue, exportingReading.P1, [("tariff", "low")]⟩,
       ⟨consCountDesc, .CounterValue, exportingReading.P2, [("tariff", "high")]⟩,
       ⟨prodCountDesc, .CounterValue, exportingReading.N1, [("tariff", "low")]⟩,
       ⟨prodCountDesc, .CounterValue, exportingReading.N2, [("tariff", "high")]⟩,
       ⟨pwrGaugeDesc, .GaugeValue, literalOps.ofInt exportingReading.Pwr, []⟩] ∧
    ∀ ms, (Collect literalOps mainCollector (answering 200 exportingBody)).2 = .ok ms →
      (ms.filter (fun m => decide (m.desc = consCountDesc))).map Metric.labelPairs =
        [[("tariff", "low")], [("tariff", "high")]] ∧
      (ms.filter (fun m => decide (m.desc = prodCountDesc))).map Metric.labelPairs =
        [[("tariff", "low")], [("tariff", "high")]]) :=
  ⟨rfl, rfl, collect_emits_six_observations literalOps mainCollector
    (answering 200 exportingBody) exportingReading rfl⟩

/-- Claim C2. When the fetch ends in a transport error, a body-read error or an
error returned by `json.Unmarshal`, `RemoteMetrics` returns the all-zero reading
without panicking, and `Collect` still sends exactly six metrics, each with
value 0. -/
theorem fetch_failure_gives_zero_observations {F : Type} (fl : Float64Ops F)
    (yc : YoulessCollector) (net : Network)
    (h : net yc.url = .err ∨ (∃ s, net yc.url = .resp s .err) ∨
      ∃ s b e, net yc.url = .resp s (.data b) ∧ (Unmarshal fl b).2 = some e) :
    RemoteMetrics fl yc net = .ok (YoulessEntry.zero fl) ∧
    ∃ ms, (Collect fl yc net).2 = .ok ms ∧ ms.length = 6 ∧ ∀ m ∈ ms, m.val = fl.zero := by
  have hz : RemoteMetrics fl yc net = .ok (YoulessEntry.zero fl) := by
    rcases h with h | ⟨s, h⟩ | ⟨s, b, e, h, he⟩
    · exact remoteMetrics_get_err fl yc net h
    · exact remoteMetrics_read_err fl yc net s h
    · exact remoteMetrics_unmarshal_err fl yc net s b e h he
  refine ⟨hz, ?_⟩
  rw [collect_of_remoteMetrics fl yc net _ hz]
  exact zero_observations fl

/-- Witness of C2: a body that is not JSON. -/
theorem fetch_failure_gives_zero_observations_witness :
    (Unmarshal literalOps Body.invalid).2 = some .SyntaxError ∧
    RemoteMetrics literalOps mainCollector (answering 200 .invalid) =
      .ok (YoulessEntry.zero literalOps) ∧
    ∃ ms, (Collect literalOps mainCollector (answering 200 .invalid)).2 = .ok ms ∧
      ms.length = 6 ∧ ∀ m ∈ ms, m.val = literalOps.zero :=
  ⟨rfl, fetch_failure_gives_zero_observations literalOps mainCollector
    (answering 200 .invalid) (Or.inr (Or.inr ⟨200, .invalid, .SyntaxError, rfl, rfl⟩))⟩

/-- Claim C3, evaluated on the code. For the body `[]`, and likewise for the body
`null`, `json.Unmarshal` returns no error and leaves `entries` empty, so
`entries[0]` panics: `RemoteMetrics` returns no reading and `Collect` sends no
metric, where the claim asks for the all-zero reading and six zero metrics. -/
theorem remoteMetrics_empty_sequence_panics {F : Type} (fl : Float64Ops F) (s : Nat) :
    Unmarshal fl (.json (.array [])) = ([], none) ∧
    Unmarshal fl (.json .null) = ([], none) ∧
    RemoteMetrics fl mainCollector (answering s (.json (.array []))) =
      .error (.indexOutOfRange 0 0) ∧
    RemoteMetrics fl mainCollector (answering s (.json .null)) =
      .error (.indexOutOfRange 0 0) ∧
    (Collect fl mainCollector (answering s (.json (.array [])))).2 =
      .error (.indexOutOfRange 0 0) ∧
    (Collect fl mainCollector (answering s (.json .null))).2 =
      .error (.indexOutOfRange 0 0) :=
  ⟨rfl, rfl, rfl, rfl, rfl, rfl⟩

/-- Counterexample to C4 as stated: with the device unreachable, `Describe` sends
six descriptors, four of them distinct, and none of them has one of the names
`gas_consumption_total`, `kwh_consumption_total`, `kwh_production_total`,
`pwr_current`. -/
theorem describe_not_four_bare_names :
    ∃ ds, (Describe literalOps mainCollector unreachable).2 = .ok ds ∧
      ds.length = 6 ∧ ds.dedup.length = 4 ∧
      ∀ d ∈ ds, d.fqName ∉ ["gas_consumption_total", "kwh_consumption_total",
        "kwh_production_total", "pwr_current"] :=
  ⟨_, rfl, rfl, by decide, by decide⟩

/-- Claim C4, amended. Whenever the fetch returns a reading (a valid response, a
malformed body, a transport or read failure), `Describe` sends the descriptor of
each of the six collected metrics, in the order of `Collect`; the distinct ones
are exactly four, named `youless_gas_consumption_total`,
`youless_kwh_consumption_total`, `youless_kwh_production_total` and
`youless_pwr_current`. -/
theorem describe_sends_collected_descriptors {F : Type} (fl : Float64Ops F)
    (yc : YoulessCollector) (net : Network) (r : YoulessEntry F)
    (h : RemoteMetrics fl yc net = .ok r) :
    ∃ ds, (Describe fl yc net).2 = .ok ds ∧
      ds = [gasCountDesc, consCountDesc, consCountDesc, prodCountDesc, prodCountDesc,
        pwrGaugeDesc] ∧
      ds.dedup = [gasCountDesc, consCountDesc, prodCountDesc, pwrGaugeDesc] ∧
      ds.dedup.map Desc.fqName =
        ["youless_gas_consumption_total", "youless_kwh_consumption_total",
          "youless_kwh_production_total", "youless_pwr_current"] := by
  refine ⟨_, ?_, rfl, by decide, by decide⟩
  simp only [Describe]
  rw [collect_of_remoteMetrics fl yc net r h, emitMetrics_ok]
  rfl

/-- Witness of the amended C4: the sample response of the device. -/
theorem describe_sends_collected_descriptors_witness :
    RemoteMetrics literalOps mainCollector (answering 200 sampleBody) =
      .ok sampleReading ∧
    ∃ ds, (Describe literalOps mainCollector (answering 200 sampleBody)).2 = .ok ds ∧
      ds = [gasCountDesc, consCountDesc, consCountDesc, prodCountDesc, prodCountDesc,
        pwrGaugeDesc] ∧
      ds.dedup = [gasCountDesc, consCountDesc, prodCountDesc, pwrGaugeDesc] ∧
      ds.dedup.map Desc.fqName =
        ["youless_gas_consumption_total", "youless_kwh_consumption_total",
          "youless_kwh_production_total", "youless_pwr_current"] :=
  ⟨rfl, describe_sends_collected_descriptors literalOps mainCollector
    (answering 200 sampleBody) sampleReading rfl⟩

/-- Claim C5. When the body decodes without error to a sequence `e :: rest`,
`RemoteMetrics` returns `e`. The later elements do not matter: another body that
decodes to the same first element gives the same reading, and so does another
array with the same first JSON element and different later elements. -/
theorem remoteMetrics_returns_first {F : Type} (fl : Float64Ops F)
    (yc : YoulessCollector) (net : Network) (s : Nat) (b : Body) (e : YoulessEntry F)
    (rest : List (YoulessEntry F))
    (hnet : net yc.url = .resp s (.data b)) (hdec : Unmarshal fl b = (e :: rest, none)) :
    RemoteMetrics fl yc net = .ok e ∧
    (∀ (yc2 : YoulessCollector) (net2 : Network) (s2 : Nat) (b2 : Body)
        (rest2 : List (YoulessEntry F)),
      net2 yc2.url = .resp s2 (.data b2) → Unmarshal fl b2 = (e :: rest2, none) →
      RemoteMetrics fl yc2 net2 = RemoteMetrics fl yc net) ∧
    (∀ (x : JValue) (xs ys : List JValue) (net2 : Network) (s2 : Nat),
      b = .json (.array (x :: xs)) →
      net2 yc.url = .resp s2 (.data (.json (.array (x :: ys)))) →
      (Unmarshal fl (.json (.array (x :: ys)))).2 = none →
      RemoteMetrics fl yc net2 = RemoteMetrics fl yc net) := by
  have h1 : RemoteMetrics fl yc net = .ok e :=
    remoteMetrics_unmarshal_ok fl yc net s b _ hnet hdec
  refine ⟨h1, ?_, ?_⟩
  · intro yc2 net2 s2 b2 rest2 hn2 hd2
    rw [h1]
    exact remoteMetrics_unmarshal_ok fl yc2 net2 s2 b2 _ hn2 hd2
  · intro x xs ys net2 s2 hb hn2 hd2
    subst hb
    have he : (Unmarshal fl (.json (.array (x :: xs)))).2 = none := by rw [hdec]
    rw [remoteMetrics_array_cons fl yc net s x xs hnet he,
      remoteMetrics_array_cons fl yc net2 s2 x ys hn2 hd2]

/-- Witness of C5: the body `[{"gas":1.5},{"gas":9}]` gives the reading of
`[{"gas":1.5}]` and of `[{"gas":1.5},{"gas":7},{}]`. -/
theorem remoteMetrics_returns_first_witness :
    RemoteMetrics literalOps mainCollector
      (answering 200 (.json (.array [.object [("gas", .number (.dec 1 [5]))],
        .object [("gas", .number (.nat 9))]]))) = .ok (gasOnly (.dec 1 [5])) ∧
    RemoteMetrics literalOps mainCollector
      (answering 200 (.json (.array [.object [("gas", .number (.dec 1 [5]))]]))) =
      RemoteMetrics literalOps mainCollector
        (answering 200 (.json (.array [.object [("gas", .number (.dec 1 [5]))],
          .object [("gas", .number (.nat 9))]]))) ∧
    RemoteMetrics literalOps mainCollector
      (answering 200 (.json (.array [.object [("gas", .number (.dec 1 [5]))],
        .object [("gas", .number (.nat 7))], .object []]))) =
      RemoteMetrics literalOps mainCollector
        (answering 200 (.json (.array [.object [("gas", .number (.dec 1 [5]))],
          .object [("gas", .number (.nat 9))]]))) :=
  have h := remoteMetrics_returns_first literalOps mainCollector
    (answering 200 (.json (.array [.object [("gas", .number (.dec 1 [5]))],
      .object [("gas", .number (.nat 9))]]))) 200 _ (gasOnly (.dec 1 [5]))
    [gasOnly (.nat 9)] rfl rfl
  ⟨h.1, h.2.1 mainCollector _ 200 _ [] rfl rfl,
    h.2.2 _ _ [.object [("gas", .number (.nat 7))], .object []] _ 200 rfl rfl rfl⟩

/-- Counterexample to C6 as stated: in `[{"gas":1,"GAS":2}]` the member `GAS` is
under a name that is none of the twelve, yet the decoder stores it into `Gas`
(keys are matched to field names without regard to case): the reading has
`Gas = 2`, not the value 1 of the member `gas`, and differs from the reading of
`[{"gas":1}]`. -/
theorem unmarshal_other_case_key_overrides :
    "GAS" ∉ Field.all.map Field.jsonName ∧
    Unmarshal literalOps (.json (.array [.object [("gas", .number (.nat 1)),
      ("GAS", .number (.nat 2))]])) = ([gasOnly (.nat 2)], none) ∧
    Unmarshal literalOps (.json (.array [.object [("gas", .number (.nat 1))]])) =
      ([gasOnly (.nat 1)], none) ∧
    gasOnly (.nat 2) ≠ gasOnly (.nat 1) :=
  ⟨by decide, rfl, rfl, by decide⟩

/-- Claim C6, amended. Take a one-element array whose object has at most one
member under each of the names `tm`, `net`, `pwr`, `ts0`, `cs0`, `ps0`, `p1`,
`p2`, `n1`, `n2`, `gas`, `gts`, each a number that converts for the kind of its
field, plus any number of members whose keys match no field name under the
decoder's case-insensitive key matching. Then decoding succeeds without error,
`RemoteMetrics` returns the decoded entry, each field whose name is present holds
the converted value of that member, each field whose name is absent is zero, and
removing the members with unmatched keys gives the same result. -/
theorem unmarshal_single_object {F : Type} (fl : Float64Ops F)
    (ms : List (String × JValue))
    (hms : ∀ m ∈ ms, lookupField m.1 = none ∨
      ∃ (f : Field) (n : JNumber), m = (f.jsonName, JValue.number n) ∧
        (convertNumber fl f.kind n).isSome = true)
    (hnd : ms.Pairwise (fun a b => lookupField a.1 = none ∨ a.1 ≠ b.1)) :
    ∃ e, Unmarshal fl (.json (.array [.object ms])) = ([e], none) ∧
      (∀ (yc : YoulessCollector) (net : Network) (s : Nat),
        net yc.url = .resp s (.data (.json (.array [.object ms]))) →
        RemoteMetrics fl yc net = .ok e) ∧
      (∀ (f : Field) (n : JNumber), (f.jsonName, JValue.number n) ∈ ms →
        convertNumber fl f.kind n = some (e.get f)) ∧
      (∀ f : Field, (∀ m ∈ ms, m.1 ≠ f.jsonName) →
        e.get f = (YoulessEntry.zero fl).get f) ∧
      Unmarshal fl (.json (.array
        [.object (ms.filter (fun m => (lookupField m.1).isSome))])) = ([e], none) := by
  obtain ⟨i1, i2, i3⟩ := foldl_wellTyped fl ms hms hnd (YoulessEntry.zero fl, none)
  have hu : Unmarshal fl (.json (.array [.object ms])) =
      ([(ms.foldl (storeMember fl) (YoulessEntry.zero fl, none)).1], none) := by
    have h0 : Unmarshal fl (.json (.array [.object ms])) =
        ([(ms.foldl (storeMember fl) (YoulessEntry.zero fl, none)).1],
          (ms.foldl (storeMember fl) (YoulessEntry.zero fl, none)).2) := rfl
    rw [h0, i1]
  refine ⟨_, hu, ?_, i2, i3, ?_⟩
  · intro yc net s hn
    exact remoteMetrics_unmarshal_ok fl yc net s _ _ hn hu
  · have h0 : Unmarshal fl (.json (.array
        [.object (ms.filter (fun m => (lookupField m.1).isSome))])) =
        ([((ms.filter (fun m => (lookupField m.1).isSome)).foldl (storeMember fl)
            (YoulessEntry.zero fl, none)).1],
          ((ms.filter (fun m => (lookupField m.1).isSome)).foldl (storeMember fl)
            (YoulessEntry.zero fl, none)).2) := rfl
    rw [h0, foldl_filter_known, i1]

/-- Witness of the amended C6: the body
`[{"gas":2878.709,"p1":4590.448,"p2":4315.399,"n1":2320.876,"n2":5451.039,"pwr":431}]`
decodes to `Gas = 2878.709`, `P1 = 4590.448`, `P2 = 4315.399`, `N1 = 2320.876`,
`N2 = 5451.039`, `Pwr = 431` and zero in the six other fields. -/
theorem unmarshal_single_object_witness :
    Unmarshal literalOps sampleBody = ([sampleReading], none) ∧
    ∃ e, Unmarshal literalOps (.json (.array [.object sampleMembers])) = ([e], none) ∧
      (∀ (yc : YoulessCollector) (net : Network) (s : Nat),
        net yc.url = .resp s (.data (.json (.array [.object sampleMembers]))) →
        RemoteMetrics literalOps yc net = .ok e) ∧
      (∀ (f : Field) (n : JNumber), (f.jsonName, JValue.number n) ∈ sampleMembers →
        convertNumber literalOps f.kind n = some (e.get f)) ∧
      (∀ f : Field, (∀ m ∈ sampleMembers, m.1 ≠ f.jsonName) →
        e.get f = (YoulessEntry.zero literalOps).get f) ∧
      Unmarshal literalOps (.json (.array
        [.object (sampleMembers.filter (fun m => (lookupField m.1).isSome))])) =
        ([e], none) :=
  ⟨rfl, unmarshal_single_object literalOps sampleMembers
    (by
      intro m hm
      simp only [sampleMembers, List.mem_cons, List.mem_singleton, List.not_mem_nil,
        or_false] at hm
      rcases hm with h | h | h | h | h | h <;> subst h
      · exact Or.inr ⟨.Gas, _, rfl, rfl⟩
      · exact Or.inr ⟨.P1, _, rfl, rfl⟩
      · exact Or.inr ⟨.P2, _, rfl, rfl⟩
      · exact Or.inr ⟨.N1, _, rfl, rfl⟩
      · exact Or.inr ⟨.N2, _, rfl, rfl⟩
      · exact Or.inr ⟨.Pwr, _, rfl, rfl⟩)
    (by decide)⟩

/-- Claim C7. A reading returned by `RemoteMetrics` is either the all-zero
reading or the first entry of a body that decoded as a whole without error.
Whenever `json.Unmarshal` returns an error the result is all-zero; in particular
when one member of one element is reported (it is reported when decoded on its
own), whatever the other members and elements are. Members that are reported
include a fractional or string value for `pwr` and a negative value for the
unsigned `tm`, `ts0`, `ps0` or `gts`. -/
theorem remoteMetrics_all_or_nothing {F : Type} (fl : Float64Ops F)
    (yc : YoulessCollector) (net : Network) :
    (∀ r, RemoteMetrics fl yc net = .ok r →
      r = YoulessEntry.zero fl ∨
      ∃ s b rest, net yc.url = .resp s (.data b) ∧ Unmarshal fl b = (r :: rest, none)) ∧
    (∀ s b e, net yc.url = .resp s (.data b) → (Unmarshal fl b).2 = some e →
      RemoteMetrics fl yc net = .ok (YoulessEntry.zero fl)) ∧
    (∀ s vs ms m, net yc.url = .resp s (.data (.json (.array vs))) →
      JValue.object ms ∈ vs → m ∈ ms →
      (storeMember fl (YoulessEntry.zero fl, none) m).2 ≠ none →
      (Unmarshal fl (.json (.array vs))).2 ≠ none ∧
      RemoteMetrics fl yc net = .ok (YoulessEntry.zero fl)) ∧
    (∀ n : JNumber, n.frac ≠ [] →
      (storeMember fl (YoulessEntry.zero fl, none) ("pwr", .number n)).2 ≠ none) ∧
    (∀ t : String,
      (storeMember fl (YoulessEntry.zero fl, none) ("pwr", .string t)).2 ≠ none) ∧
    (∀ (key : String) (n : JNumber), key ∈ ["tm", "ts0", "ps0", "gts"] → n.neg = true →
      (storeMember fl (YoulessEntry.zero fl, none) (key, .number n)).2 ≠ none) := by
  refine ⟨?_, ?_, ?_, fun n hn => storeMember_fractional_int fl _ .Pwr n rfl hn,
    fun t => storeMember_string fl _ .Pwr t, ?_⟩
  · intro r hr
    cases hn : net yc.url with
    | err =>
      rw [remoteMetrics_get_err fl yc net hn] at hr
      cases hr
      exact Or.inl rfl
    | resp s rd =>
      cases rd with
      | err =>
        rw [remoteMetrics_read_err fl yc net s hn] at hr
        cases hr
        exact Or.inl rfl
      | data b =>
        cases hu : Unmarshal fl b with
        | mk es err =>
          cases err with
          | some e =>
            rw [remoteMetrics_unmarshal_err fl yc net s b e hn (by rw [hu])] at hr
            cases hr
            exact Or.inl rfl
          | none =>
            rw [remoteMetrics_unmarshal_ok fl yc net s b es hn hu] at hr
            cases es with
            | nil => cases hr
            | cons e rest =>
              cases hr
              exact Or.inr ⟨s, b, rest, rfl, hu⟩
  · intro s b e hn he
    exact remoteMetrics_unmarshal_err fl yc net s b e hn he
  · intro s vs ms m hn hv hm herr
    have hne : (Unmarshal fl (.json (.array vs))).2 ≠ none :=
      decodeArray_reports fl vs (.object ms) hv
        (fun saved => foldl_reports fl _ ms m hm herr _) none
    refine ⟨hne, ?_⟩
    cases hu : (Unmarshal fl (.json (.array vs))).2 with
    | none => exact absurd hu hne
    | some e => exact remoteMetrics_unmarshal_err fl yc net s _ e hn hu
  · intro key n hkey hneg
    simp only [List.mem_cons, List.mem_singleton, List.not_mem_nil, or_false] at hkey
    rcases hkey with h | h | h | h <;> subst h
    · exact storeMember_negative_uint fl _ .Tm n rfl hneg
    · exact storeMember_negative_uint fl _ .Ts0 n rfl hneg
    · exact storeMember_negative_uint fl _ .Ps0 n rfl hneg
    · exact storeMember_negative_uint fl _ .Gts n rfl hneg

/-- Witness of C7: in `[{"gas":1.5,"pwr":1.5}]` the member `gas` is decoded into
the entry and the fractional `pwr` is reported; `RemoteMetrics` returns the
all-zero reading, not the entry with `Gas = 1.5`. -/
theorem remoteMetrics_all_or_nothing_witness :
    Unmarshal literalOps (.json (.array [.object fractionalPowerMembers])) =
      ([gasOnly (.dec 1 [5])], some (.UnmarshalTypeError "number")) ∧
    (storeMember literalOps (YoulessEntry.zero literalOps, none)
      ("pwr", .number (.dec 1 [5]))).2 ≠ none ∧
    ((Unmarshal literalOps (.json (.array [.object fractionalPowerMembers]))).2 ≠ none ∧
      RemoteMetrics literalOps mainCollector
        (answering 200 (.json (.array [.object fractionalPowerMembers]))) =
        .ok (YoulessEntry.zero literalOps)) :=
  ⟨rfl, by decide,
    (remoteMetrics_all_or_nothing literalOps mainCollector
      (answering 200 (.json (.array [.object fractionalPowerMembers])))).2.2.1 200
      [.object fractionalPowerMembers] fractionalPowerMembers
      ("pwr", .number (.dec 1 [5])) rfl (List.mem_cons_self _ _)
      (List.mem_cons_of_mem _ (List.mem_cons_self _ _)) (by decide)⟩

/-- Claim C8, evaluated on the code. For every collector, when the device
answers with the body `[]`, the first call of `Collect` panics at `entries[0]`
and sends no metric, and so does the second call on the same response: neither
call yields the six observations the claim asks for on every device response.
The collector itself is left as it was. -/
theorem collect_twice_on_empty_array_panics {F : Type} (fl : Float64Ops F)
    (yc : YoulessCollector) (s : Nat) :
    (Collect fl yc (answering s (.json (.array [])))).2 =
      .error (.indexOutOfRange 0 0) ∧
    (Collect fl (Collect fl yc (answering s (.json (.array [])))).1
      (answering s (.json (.array [])))).2 = .error (.indexOutOfRange 0 0) ∧
    (¬ ∃ ms, (Collect fl yc (answering s (.json (.array [])))).2 = .ok ms) ∧
    (¬ ∃ ms, (Collect fl (Collect fl yc (answering s (.json (.array [])))).1
      (answering s (.json (.array [])))).2 = .ok ms) ∧
    (Collect fl yc (answering s (.json (.array [])))).1 = yc := by
  have h1 : (Collect fl yc (answering s (.json (.array [])))).2 =
      .error (.indexOutOfRange 0 0) :=
    collect_of_panic fl yc _ _
      (remoteMetrics_unmarshal_ok fl yc (answering s (.json (.array []))) s _ [] rfl rfl)
  refine ⟨h1, h1, ?_, ?_, rfl⟩
  · rintro ⟨ms, h⟩
    rw [h1] at h
    cases h
  · rintro ⟨ms, h⟩
    have h2 : (Collect fl (Collect fl yc (answering s (.json (.array [])))).1
        (answering s (.json (.array [])))).2 = .error (.indexOutOfRange 0 0) := h1
    rw [h2] at h
    cases h

/-- Claim C9. For every reading, each of the six calls of `MustNewConstMetric`
in `Collect` succeeds: no descriptor carries an error and the number of label
values passed equals the number of label names of the descriptor (none for the
gas and power descriptors, one for the consumption and production descriptors).
So the metrics are produced for every reading, without a panic. -/
theorem emitMetrics_total {F : Type} (fl : Float64Ops F) (r : YoulessEntry F) :
    (∃ m, MustNewConstMetric gasCountDesc .CounterValue r.Gas [] = .ok m) ∧
    (∃ m, MustNewConstMetric consCountDesc .CounterValue r.P1 ["low"] = .ok m) ∧
    (∃ m, MustNewConstMetric consCountDesc .CounterValue r.P2 ["high"] = .ok m) ∧
    (∃ m, MustNewConstMetric prodCountDesc .CounterValue r.N1 ["low"] = .ok m) ∧
    (∃ m, MustNewConstMetric prodCountDesc .CounterValue r.N2 ["high"] = .ok m) ∧
    (∃ m, MustNewConstMetric pwrGaugeDesc .GaugeValue (fl.ofInt r.Pwr) [] = .ok m) ∧
    ([] : List String).length = gasCountDesc.variableLabels.length ∧
    ["low"].length = consCountDesc.variableLabels.length ∧
    ["high"].length = consCountDesc.variableLabels.length ∧
    ["low"].length = prodCountDesc.variableLabels.length ∧
    ["high"].length = prodCountDesc.variableLabels.length ∧
    ([] : List String).length = pwrGaugeDesc.variableLabels.length ∧
    gasCountDesc.variableLabels.length = 0 ∧ pwrGaugeDesc.variableLabels.length = 0 ∧
    consCountDesc.variableLabels.length = 1 ∧ prodCountDesc.variableLabels.length = 1 ∧
    ∃ ms, emitMetrics fl r = .ok ms ∧ ms.length = 6 :=
  ⟨⟨_, rfl⟩, ⟨_, rfl⟩, ⟨_, rfl⟩, ⟨_, rfl⟩, ⟨_, rfl⟩, ⟨_, rfl⟩, rfl, rfl, rfl, rfl, rfl,
    rfl, rfl, rfl, rfl, rfl, ⟨_, emitMetrics_ok fl r, rfl⟩⟩

/-- Claim C10. The outcome of `RemoteMetrics` depends on the body of the response
only: two responses with the same body and any two status codes give the same
reading. -/
theorem remoteMetrics_ignores_status {F : Type} (fl : Float64Ops F)
    (yc : YoulessCollector) (net1 net2 : Network) (s1 s2 : Nat) (rd : ReadResult)
    (h1 : net1 yc.url = .resp s1 rd) (h2 : net2 yc.url = .resp s2 rd) :
    RemoteMetrics fl yc net1 = RemoteMetrics fl yc net2 := by
  simp only [RemoteMetrics, h1, h2]

/-- Witness of C10: the sample body sent with status 500 is reported as the
reading it denotes, as with status 200. -/
theorem remoteMetrics_ignores_status_witness :
    RemoteMetrics literalOps mainCollector (answering 500 sampleBody) =
      .ok sampleReading ∧
    RemoteMetrics literalOps mainCollector (answering 500 sampleBody) =
      RemoteMetrics literalOps mainCollector (answering 200 sampleBody) :=
  ⟨rfl, remoteMetrics_ignores_status literalOps mainCollector
    (answering 500 sampleBody) (answering 200 sampleBody) 500 200 (.data sampleBody)
    rfl rfl⟩

end Youless
